import Mathlib

/-!
Shallow embedding of the aai-query-app-slack adapter layer:

* the Vectara service (`VectaraService.query` and its constructor, from
  `src/services/vectara.ts`),
* the hard-coded query defaults (`VectaraQueryDefaults`, from
  `src/config/prompts.ts`),
* the Slack text formatter (`cleanupMarkdown` and `formatSources`, from
  `src/app.ts`).

JavaScript numbers are modelled as `Rat` where fractional values occur and
`Nat` for the integral tuning fields; optional / possibly-`undefined` values
are modelled as `Option`; a thrown exception is the `Except.error` branch.
-/

namespace AaiQuery

/-! ### Remote data model (the TypeScript interfaces of the service file) -/

/-- `document_metadata` of a search result: every field is optional.  The
source field `type` is rendered here as `doctype`. -/
structure DocumentMetadata where
  title : Option String
  url : Option String
  doctype : Option String
  excerpt : Option String
  deriving Repr, DecidableEq

/-- A scored passage returned by the remote search (`VectaraSearchResult`). -/
structure VectaraSearchResult where
  text : Option String
  score : Option Rat
  document_metadata : Option DocumentMetadata
  deriving Repr, DecidableEq

/-- The upstream success payload (`VectaraResponse`).  At runtime any field
may be absent, so each is an `Option`; `field_errors` and `messages` model
the optional arrays of the payload (presence of the key is what the code
tests, so the element lists may be empty). -/
structure VectaraResponse where
  summary : Option String
  search_results : Option (List VectaraSearchResult)
  factual_consistency_score : Option Rat
  field_errors : Option (List String)
  messages : Option (List String)
  deriving Repr, DecidableEq

/-- A derived citation source (`VectaraSource`): `{title, url}`. -/
structure VectaraSource where
  title : String
  url : String
  deriving Repr, DecidableEq

/-! ### Configuration (`VectaraQueryDefaults` and the service constructor) -/

/-! Hard-coded defaults from the configuration file. -/

namespace VectaraQueryDefaults

def searchDepth : Nat := 100

def maxResults : Nat := 20

def maxTokens : Nat := 300

def maxResponseChars : Nat := 4000

def temperature : Rat := 0.5

def frequencyPenalty : Rat := 0.3

def presencePenalty : Rat := 0.3

def relevanceThreshold : Rat := 0.25

def diversityBias : Rat := 0.2

end VectaraQueryDefaults

/-- The constructor argument as seen at runtime: any property may be absent
(`undefined`), hence every field is an `Option`. -/
structure VectaraConfigInput where
  customerId : Option String := none
  apiKey : Option String := none
  corpusKey : Option String := none
  prePrompt : Option String := none
  promptTemplate : Option String := none
  searchDepth : Option Nat := none
  maxResults : Option Nat := none
  maxTokens : Option Nat := none
  temperature : Option Rat := none
  frequencyPenalty : Option Rat := none
  presencePenalty : Option Rat := none
  diversityBias : Option Rat := none
  relevanceThreshold : Option Rat := none
  maxResponseChars : Option Nat := none
  deriving Repr, DecidableEq

/-- The service's stored configuration after the constructor ran.  The nine
numeric tuning fields always hold a value (the constructor applies `??`
fall-backs for them); the credential, corpus and prompt fields are copied
through unchanged, so they stay `Option` — the constructor gives them no
fall-back. -/
structure VectaraConfig where
  customerId : Option String
  apiKey : Option String
  corpusKey : Option String
  prePrompt : Option String
  promptTemplate : Option String
  searchDepth : Nat
  maxResults : Nat
  maxTokens : Nat
  temperature : Rat
  frequencyPenalty : Rat
  presencePenalty : Rat
  diversityBias : Rat
  relevanceThreshold : Rat
  maxResponseChars : Nat
  deriving Repr, DecidableEq

/-- The `VectaraService` constructor body: `config.field ?? VectaraQueryDefaults.field`
for each tuning field, plain copies for the rest. -/
def mkVectaraConfig (config : VectaraConfigInput) : VectaraConfig where
  customerId := config.customerId
  apiKey := config.apiKey
  corpusKey := config.corpusKey
  prePrompt := config.prePrompt
  promptTemplate := config.promptTemplate
  searchDepth := config.searchDepth.getD VectaraQueryDefaults.searchDepth
  maxResults := config.maxResults.getD VectaraQueryDefaults.maxResults
  maxTokens := config.maxTokens.getD VectaraQueryDefaults.maxTokens
  temperature := config.temperature.getD VectaraQueryDefaults.temperature
  frequencyPenalty := config.frequencyPenalty.getD VectaraQueryDefaults.frequencyPenalty
  presencePenalty := config.presencePenalty.getD VectaraQueryDefaults.presencePenalty
  diversityBias := config.diversityBias.getD VectaraQueryDefaults.diversityBias
  relevanceThreshold := config.relevanceThreshold.getD VectaraQueryDefaults.relevanceThreshold
  maxResponseChars := config.maxResponseChars.getD VectaraQueryDefaults.maxResponseChars

/-- The all-absent constructor argument (every override missing). -/
def emptyInput : VectaraConfigInput := {}

/-- The configuration obtained with no overrides at all. -/
def defaultConfig : VectaraConfig := mkVectaraConfig emptyInput

/-! ### The query pipeline (`VectaraService.query`) -/

/-- What the upstream call produced: either an axios-level transport failure
(an `AxiosError`, which carries the upstream status and message when
available) or a success payload.  The service's `catch` block re-throws the
transport failure unchanged, so the embedding threads it through `query` as
an explicit outcome. -/
inductive UpstreamOutcome where
  | transportError (status : Option Nat) (message : String)
  | success (resp : VectaraResponse)
  deriving Repr, DecidableEq

/-- The errors `query` can propagate: the re-thrown transport failure, the
`Invalid response from Vectara: ...` rejection (carrying the
`field_errors || messages` value it stringifies), and the
`No summary in Vectara response` rejection. -/
inductive QueryError where
  | remoteError (status : Option Nat) (message : String)
  | invalidResponse (detail : List String)
  | noSummary
  deriving Repr, DecidableEq

/-- Whether an error is one of the two payload rejections — what the spec
calls `InvalidResponse` (as opposed to `RemoteError`). -/
def isInvalidResponse : QueryError → Bool
  | .remoteError _ _ => false
  | .invalidResponse _ => true
  | .noSummary => true

/-- The adapter's output: `{summary, sources}`. -/
structure QueryResult where
  summary : String
  sources : List VectaraSource
  deriving Repr, DecidableEq

/-- `r.score ?? 0` — the relevance score with a missing score read as 0. -/
def scoreOf (r : VectaraSearchResult) : Rat := r.score.getD 0

/-- `r.document_metadata?.title ?? r.text?.substring(0, 100) ?? 'Untitled'` —
the derived title of a passage. -/
def titleOf (r : VectaraSearchResult) : String :=
  match r.document_metadata.bind (fun m => m.title) with
  | some t => t
  | none =>
    match r.text with
    | some tx => tx.take 100
    | none => "Untitled"

/-- `r.document_metadata?.url ?? ''` — the derived url of a passage. -/
def urlOf (r : VectaraSearchResult) : String :=
  (r.document_metadata.bind (fun m => m.url)).getD ""

/-- The first `.filter` of the source pipeline:
`(r.score ?? 0) >= this.config.relevanceThreshold` (the `?? 0.2` on the
threshold is dead once the constructor ran, since the stored threshold
always holds a value). -/
def survivingPassages (cfg : VectaraConfig) (results : List VectaraSearchResult) :
    List VectaraSearchResult :=
  results.filter (fun r => cfg.relevanceThreshold ≤ scoreOf r)

/-- The pipeline up to — but not including — the final `reduce`:
filter by score, map to `{title, url}`, drop empty urls. -/
def preDedup (cfg : VectaraConfig) (results : List VectaraSearchResult) :
    List VectaraSource :=
  ((survivingPassages cfg results).map (fun r => { title := titleOf r, url := urlOf r }))
    |>.filter (fun s => s.url != "")

/-- One step of the `reduce`: append `curr` unless a kept source already has
its url. -/
def dedupStep (acc : List VectaraSource) (curr : VectaraSource) : List VectaraSource :=
  if acc.any (fun s => s.url == curr.url) then acc else acc ++ [curr]

/-- The final `reduce` of the pipeline: keep the first occurrence of each url. -/
def dedupByUrl (l : List VectaraSource) : List VectaraSource :=
  l.foldl dedupStep []

/-- The whole source-derivation pipeline of `query`. -/
def deriveSources (cfg : VectaraConfig) (results : List VectaraSearchResult) :
    List VectaraSource :=
  dedupByUrl (preDedup cfg results)

/-- `VectaraService.query`, with the upstream call's outcome made explicit.

On a transport failure the `catch` block re-throws it (`RemoteError`).
On a success payload: throw `Invalid response from Vectara: ...` when
`field_errors || messages` is truthy (a present key, even bound to an empty
array, is truthy in JavaScript); then destructure
`const { summary, search_results = [] }` and throw
`No summary in Vectara response` when `!summary` (absent or empty string);
otherwise derive the sources and return `{summary, sources}`. -/
def query (cfg : VectaraConfig) (outcome : UpstreamOutcome) :
    Except QueryError QueryResult :=
  match outcome with
  | .transportError status message => .error (.remoteError status message)
  | .success resp =>
    match resp.field_errors, resp.messages with
    | some fe, _ => .error (.invalidResponse fe)
    | none, some ms => .error (.invalidResponse ms)
    | none, none =>
      match resp.summary with
      | none => .error .noSummary
      | some s =>
        if s = "" then .error .noSummary
        else .ok { summary := s, sources := deriveSources cfg (resp.search_results.getD []) }

/-- Modelled from the spec's words, for comparison with `titleOf` only: the
claim's fall-back reads the first 100 characters of the metadata `excerpt`
field (`document_metadata.excerpt`), with "Untitled" only when both the
title and the excerpt are absent. -/
def titleOfSpecExcerpt (r : VectaraSearchResult) : String :=
  match r.document_metadata.bind (fun m => m.title) with
  | some t => t
  | none =>
    match r.document_metadata.bind (fun m => m.excerpt) with
    | some e => e.take 100
    | none => "Untitled"

/-! ### Text formatter (`cleanupMarkdown` and `formatSources`) -/

/-- The backtick character (the inline-code delimiter). -/
def tick : Char := Char.ofNat 96

/-- Characters matched by `.` in a JavaScript regex without the `s` flag:
anything but a line terminator. -/
def isDotChar (c : Char) : Bool :=
  !(c == '\n' || c == '\r' || c == ' ' || c == ' ')

/-- JavaScript line terminators, the characters after which a multiline `^`
matches. -/
def isLineTerminator (c : Char) : Bool :=
  c == '\n' || c == '\r' || c == ' ' || c == ' '

/-- Characters matched by `\s` in a JavaScript regex (WhiteSpace and
LineTerminator). -/
def isJsSpace (c : Char) : Bool :=
  c == ' ' || c == '\t' || c == '\n' || c == '\r' ||
  c == '\x0b' || c == '\x0c' || c == ' ' || c == ' ' ||
  (0x2000 ≤ c.toNat && c.toNat ≤ 0x200a) ||
  c == ' ' || c == ' ' || c == ' ' || c == ' ' ||
  c == '　' || c == '﻿'

/-- Non-greedy `(.*?)` followed by the literal `close`: the shortest run of
dot-characters after which `close` matches.  Returns the captured group and
the text after the close delimiter. -/
def matchNonGreedy (close : List Char) : List Char → Option (List Char × List Char)
  | [] => if close.isPrefixOf ([] : List Char) then some ([], []) else none
  | c :: cs =>
    if close.isPrefixOf (c :: cs) then some ([], (c :: cs).drop close.length)
    else if isDotChar c then
      (matchNonGreedy close cs).map (fun p => (c :: p.1, p.2))
    else none

/-- A match attempt, at the current position, of a paired-delimiter pattern
such as `\*\*(.*?)\*\*`: the opening literal, a non-greedy dot-run, the
closing literal.  Returns the replacement (`$1`, the captured group) and the
rest of the text. -/
def matchPaired (opn close : List Char) (l : List Char) : Option (List Char × List Char) :=
  if opn.isPrefixOf l then matchNonGreedy close (l.drop opn.length)
  else none

/-- The `g`-flag replace driver: at each position try the pattern; on a match
emit the replacement and continue after the match, otherwise copy one
character.  The fuel starts at the text length; every step consumes at least
one character (all patterns used here match at least two), so the fuel never
runs dry. -/
def replaceAllAux (try1 : List Char → Option (List Char × List Char)) :
    Nat → List Char → List Char
  | 0, l => l
  | _ + 1, [] => []
  | n + 1, c :: cs =>
    match try1 (c :: cs) with
    | some (repl, rest) => repl ++ replaceAllAux try1 n rest
    | none => c :: replaceAllAux try1 n cs

/-- `text.replace(pattern, replacement)` with the `g` flag. -/
def replaceAllBy (try1 : List Char → Option (List Char × List Char))
    (l : List Char) : List Char :=
  replaceAllAux try1 l.length l

/-- A match attempt of `#{1,6}\s` at a line-start position: one to six `#`
followed by one whitespace character.  The greedy `#{1,6}` with backtracking
succeeds exactly when the whole `#`-run is at most six long and the next
character is whitespace (a shorter take leaves a `#` next, which is not
whitespace).  Returns the consumed whitespace character and the rest. -/
def matchHeading (l : List Char) : Option (Char × List Char) :=
  let run := (l.takeWhile (fun c => c == '#')).length
  if 1 ≤ run && run ≤ 6 then
    match l.drop run with
    | c :: rest => if isJsSpace c then some (c, rest) else none
    | [] => none
  else none

/-- The `gm` replace driver for `^#{1,6}\s` → `''`: the pattern is anchored,
so a match is attempted only at the string start and after a line
terminator. -/
def replaceHeadingsAux : Nat → Bool → List Char → List Char
  | 0, _, l => l
  | _ + 1, _, [] => []
  | n + 1, atStart, c :: cs =>
    if atStart then
      match matchHeading (c :: cs) with
      | some (ws, rest) => replaceHeadingsAux n (isLineTerminator ws) rest
      | none => c :: replaceHeadingsAux n (isLineTerminator c) cs
    else c :: replaceHeadingsAux n (isLineTerminator c) cs

/-- `text.replace(/^#{1,6}\s/gm, '')`. -/
def replaceHeadings (l : List Char) : List Char :=
  replaceHeadingsAux l.length true l

/-- `String.prototype.trim()`: strip whitespace and line terminators from
both ends. -/
def trimJs (l : List Char) : List Char :=
  ((l.dropWhile isJsSpace).reverse.dropWhile isJsSpace).reverse

/-- `cleanupMarkdown` from the app file: strip bold, italic, inline code,
double-underscore, then leading heading markers, then trim. -/
def cleanupMarkdown (text : String) : String :=
  let s1 := replaceAllBy (matchPaired ['*', '*'] ['*', '*']) text.data
  let s2 := replaceAllBy (matchPaired ['*'] ['*']) s1
  let s3 := replaceAllBy (matchPaired [tick] [tick]) s2
  let s4 := replaceAllBy (matchPaired ['_', '_'] ['_', '_']) s3
  let s5 := replaceHeadings s4
  String.mk (trimJs s5)

/-- The header line `formatSources` starts with. -/
def sourcesHeader : String := "\n\n*Sources:*"

/-- One bullet of `formatSources`: a Slack hyperlink `<url|title>` on its own
line. -/
def sourceBullet (s : VectaraSource) : String :=
  "\n• <" ++ s.url ++ "|" ++ s.title ++ ">"

/-- `formatSources` from the app file: empty string when the argument is
absent or empty, otherwise the header followed by one bullet for each of the
first 15 sources, in the order provided. -/
def formatSources (sources : Option (List VectaraSource)) : String :=
  match sources with
  | none => ""
  | some l =>
    if l.length = 0 then ""
    else (l.take 15).foldl (fun acc s => acc ++ sourceBullet s) sourcesHeader

/-! ### Helper lemmas

General facts about the `reduce`-style deduplication and the formatter's
`foldl`, shared by the claim theorems below. -/


theorem dedup_foldl_append (l : List VectaraSource) :
    ∀ acc : List VectaraSource, ∃ t, List.foldl dedupStep acc l = acc ++ t ∧ t.Sublist l := by
  induction l with
  | nil => exact fun acc => ⟨[], by simp, List.Sublist.refl _⟩
  | cons c cs ih =>
    intro acc
    rw [List.foldl_cons]
    by_cases h : acc.any (fun s => s.url == c.url)
    · obtain ⟨t, ht, hs⟩ := ih acc
      have he : dedupStep acc c = acc := by simp [dedupStep, h]
      exact ⟨t, by rw [he, ht], hs.cons c⟩
    · obtain ⟨t, ht, hs⟩ := ih (acc ++ [c])
      have he : dedupStep acc c = acc ++ [c] := by simp [dedupStep, h]
      refine ⟨c :: t, ?_, hs.cons₂ c⟩
      rw [he, ht, List.append_assoc, List.singleton_append]

theorem dedup_foldl_mem_acc (l : List VectaraSource) (acc : List VectaraSource) :
    ∀ x ∈ acc, x ∈ List.foldl dedupStep acc l := by
  obtain ⟨t, ht, -⟩ := dedup_foldl_append l acc
  intro x hx
  rw [ht]
  exact List.mem_append_left _ hx

theorem dedup_foldl_nodup (l : List VectaraSource) :
    ∀ acc : List VectaraSource, (acc.map (fun s => s.url)).Nodup →
      ((List.foldl dedupStep acc l).map (fun s => s.url)).Nodup := by
  induction l with
  | nil => intro acc h; simpa using h
  | cons c cs ih =>
    intro acc h
    rw [List.foldl_cons]
    by_cases hc : acc.any (fun s => s.url == c.url)
    · have he : dedupStep acc c = acc := by simp [dedupStep, hc]
      rw [he]
      exact ih acc h
    · have he : dedupStep acc c = acc ++ [c] := by simp [dedupStep, hc]
      rw [he]
      refine ih _ ?_
      rw [List.map_append]
      refine List.Nodup.append h (List.nodup_singleton _) ?_
      intro x hx hy
      simp only [List.map_cons, List.map_nil, List.mem_singleton] at hy
      subst hy
      obtain ⟨a, ha, hau⟩ := List.mem_map.1 hx
      exact hc (List.any_eq_true.2 ⟨a, ha, by simp [hau]⟩)

theorem dedup_foldl_covers (l : List VectaraSource) :
    ∀ acc : List VectaraSource, ∀ s ∈ l, ∃ t ∈ List.foldl dedupStep acc l, t.url = s.url := by
  induction l with
  | nil => intro acc s hs; cases hs
  | cons c cs ih =>
    intro acc s hs
    rw [List.foldl_cons]
    rcases List.mem_cons.1 hs with rfl | hs
    · by_cases hc : acc.any (fun a => a.url == s.url)
      · have he : dedupStep acc s = acc := by simp [dedupStep, hc]
        rw [he]
        obtain ⟨a, ha, hau⟩ := List.any_eq_true.1 hc
        exact ⟨a, dedup_foldl_mem_acc cs acc a ha, by simpa using hau⟩
      · have he : dedupStep acc s = acc ++ [s] := by simp [dedupStep, hc]
        rw [he]
        exact ⟨s, dedup_foldl_mem_acc cs _ s (by simp), rfl⟩
    · exact ih (dedupStep acc c) s hs

theorem dedup_foldl_first (l : List VectaraSource) :
    ∀ acc : List VectaraSource, ∀ t ∈ List.foldl dedupStep acc l,
      t ∈ acc ∨ ((∀ a ∈ acc, a.url ≠ t.url) ∧ l.find? (fun s => s.url == t.url) = some t) := by
  induction l with
  | nil => intro acc t ht; exact Or.inl (by simpa using ht)
  | cons c cs ih =>
    intro acc t ht
    rw [List.foldl_cons] at ht
    by_cases hc : acc.any (fun a => a.url == c.url)
    · have he : dedupStep acc c = acc := by simp [dedupStep, hc]
      rw [he] at ht
      rcases ih acc t ht with h | ⟨hall, hfind⟩
      · exact Or.inl h
      · refine Or.inr ⟨hall, ?_⟩
        obtain ⟨a, ha, hau⟩ := List.any_eq_true.1 hc
        have hau' : a.url = c.url := by simpa using hau
        have hcne : ¬(c.url == t.url) = true := by
          have hne := hall a ha
          rw [hau'] at hne
          simpa using hne
        have hf : (c.url == t.url) = false := by simpa using hcne
        simp only [List.find?_cons, hf]
        exact hfind
    · have he : dedupStep acc c = acc ++ [c] := by simp [dedupStep, hc]
      rw [he] at ht
      rcases ih (acc ++ [c]) t ht with h | ⟨hall, hfind⟩
      · rcases List.mem_append.1 h with h | h
        · exact Or.inl h
        · have htc : t = c := by simpa using h
          subst htc
          refine Or.inr ⟨?_, ?_⟩
          · intro a ha hcontra
            exact hc (List.any_eq_true.2 ⟨a, ha, by simp [hcontra]⟩)
          · simp [List.find?_cons]
      · refine Or.inr ⟨fun a ha => hall a (List.mem_append_left _ ha), ?_⟩
        have hcne : ¬(c.url == t.url) = true := by
          have hne := hall c (List.mem_append_right _ (by simp))
          simpa using hne
        have hf : (c.url == t.url) = false := by simpa using hcne
        simp only [List.find?_cons, hf]
        exact hfind

theorem foldl_append_bullets (l : List VectaraSource) :
    ∀ init : String, l.foldl (fun acc s => acc ++ sourceBullet s) init =
      init ++ String.join (l.map sourceBullet) := by
  induction l with
  | nil =>
    intro init
    apply String.ext
    simp
  | cons c cs ih =>
    intro init
    rw [List.foldl_cons, ih]
    apply String.ext
    simp

/-! ### Concrete fixtures used by witnesses and counterexamples -/

/-- A configuration whose relevance cutoff is overridden to 1. -/
def witnessConfig : VectaraConfig := mkVectaraConfig { relevanceThreshold := some 1 }

/-- Metadata of the first of two results sharing one url. -/
def sharedMetaFirst : DocumentMetadata :=
  { title := some ("First"), url := some ("https://e.x/a"), doctype := none, excerpt := none }

/-- Metadata of the second of two results sharing one url. -/
def sharedMetaSecond : DocumentMetadata :=
  { title := some ("Second"), url := some ("https://e.x/a"), doctype := none, excerpt := none }

/-- First result of the shared-url pair. -/
def sharedUrlFirst : VectaraSearchResult :=
  { text := none, score := some 2, document_metadata := some sharedMetaFirst }

/-- Second result of the shared-url pair: same url, different title. -/
def sharedUrlSecond : VectaraSearchResult :=
  { text := none, score := some 3, document_metadata := some sharedMetaSecond }

/-- A result scoring 0, below the overridden cutoff of 1. -/
def lowScoreResult : VectaraSearchResult :=
  { text := none, score := some 0, document_metadata := some sharedMetaFirst }

/-- A response with a usable summary whose only result scores below the cutoff. -/
def lowScoreResp : VectaraResponse :=
  { summary := some ("ok"), search_results := some [lowScoreResult],
    factual_consistency_score := none, field_errors := none, messages := none }

/-- A passage with an excerpt in its metadata but neither a title nor text. -/
def excerptOnlyResult : VectaraSearchResult :=
  { text := none, score := some 1,
    document_metadata := some { title := none, url := some ("https://e.x/a"),
                                doctype := none, excerpt := some ("An excerpt.") } }

/-- A success payload with a non-empty summary and `field_errors: []`. -/
def emptyFieldErrorsResp : VectaraResponse :=
  { summary := some ("A present summary."), search_results := some [],
    factual_consistency_score := none, field_errors := some [], messages := none }

/-- A success payload with a non-empty summary and `messages: []`. -/
def emptyMessagesResp : VectaraResponse :=
  { summary := some ("A present summary."), search_results := some [],
    factual_consistency_score := none, field_errors := none, messages := some [] }

/-! ### Claim theorems -/

/-- C1: on an upstream success outcome, `query` rejects with an
invalid-response error exactly when the payload carries a `field_errors` or
`messages` key or the summary is absent or empty; in particular, present
messages win over a present non-empty summary (the left-to-right check runs
before the summary is read). -/
theorem query_invalid_response_iff (cfg : VectaraConfig) (resp : VectaraResponse) :
    (∃ e, query cfg (.success resp) = .error e ∧ isInvalidResponse e = true) ↔
      (resp.field_errors.isSome ∨ resp.messages.isSome ∨
        resp.summary = none ∨ resp.summary = some "") := by
  rcases resp with ⟨sum, sr, fcs, fe, ms⟩
  rcases fe with _ | fe <;> rcases ms with _ | ms <;> rcases sum with _ | s <;>
    simp [query, isInvalidResponse]
  by_cases hs : s = "" <;> simp [hs]

/-- C2: the derived sources are deduplicated by url keeping only the first
occurrence, in order of first occurrence: their urls are pairwise distinct,
they form an in-order sublist of the pre-deduplication list, every url of
that list is represented, and each kept entry is the first entry of the
pre-deduplication list carrying its url; on two results sharing one url with
different titles, exactly the first survives. -/
theorem deriveSources_dedup_first (cfg : VectaraConfig) (results : List VectaraSearchResult) :
    ((deriveSources cfg results).map (fun s => s.url)).Nodup ∧
      (deriveSources cfg results).Sublist (preDedup cfg results) ∧
      (∀ s ∈ preDedup cfg results, ∃ t ∈ deriveSources cfg results, t.url = s.url) ∧
      (∀ t ∈ deriveSources cfg results,
        (preDedup cfg results).find? (fun s => s.url == t.url) = some t) ∧
      deriveSources witnessConfig [sharedUrlFirst, sharedUrlSecond] =
        [{ title := "First", url := "https://e.x/a" }] := by
  refine ⟨?_, ?_, ?_, ?_, ?_⟩
  · exact dedup_foldl_nodup (preDedup cfg results) [] (by simp)
  · obtain ⟨t, ht, hs⟩ := dedup_foldl_append (preDedup cfg results) []
    rw [deriveSources, dedupByUrl, ht]
    simpa using hs
  · exact fun s hs => dedup_foldl_covers (preDedup cfg results) [] s hs
  · intro t ht
    rcases dedup_foldl_first (preDedup cfg results) [] t ht with h | ⟨-, hfind⟩
    · cases h
    · exact hfind
  · rfl

/-- C3 (amended): the derived title is the metadata title when present, falls
back to the first 100 characters of the passage `text` when no metadata
title is present, and is "Untitled" only when both are absent; any derived
source whose url is empty is dropped. -/
theorem titleOf_fallback_and_url_filter (r : VectaraSearchResult)
    (cfg : VectaraConfig) (results : List VectaraSearchResult) :
    (∀ t, r.document_metadata.bind (fun m => m.title) = some t → titleOf r = t) ∧
      (r.document_metadata.bind (fun m => m.title) = none →
        ∀ tx, r.text = some tx → titleOf r = tx.take 100) ∧
      (r.document_metadata.bind (fun m => m.title) = none → r.text = none →
        titleOf r = "Untitled") ∧
      (∀ s ∈ deriveSources cfg results, s.url ≠ "") := by
  refine ⟨?_, ?_, ?_, ?_⟩
  · intro t ht
    simp [titleOf, ht]
  · intro hn tx htx
    simp [titleOf, hn, htx]
  · intro hn htx
    simp [titleOf, hn, htx]
  · intro s hs
    obtain ⟨t, heq, hsub⟩ := dedup_foldl_append (preDedup cfg results) []
    have hmem : s ∈ preDedup cfg results := by
      have : s ∈ ([] : List VectaraSource) ++ t := heq ▸ hs
      exact hsub.subset (by simpa using this)
    have := List.of_mem_filter hmem
    simpa using this

set_option maxRecDepth 8192 in
/-- C3 counterexample: on a passage whose metadata carries an excerpt but no
title and whose `text` is absent, the code derives "Untitled", not the first
100 characters of the excerpt as the claim states. -/
theorem titleOf_ne_spec_excerpt :
    titleOf excerptOnlyResult = "Untitled" ∧
      titleOfSpecExcerpt excerptOnlyResult = "An excerpt." ∧
      titleOf excerptOnlyResult ≠ titleOfSpecExcerpt excerptOnlyResult := by
  have h1 : titleOf excerptOnlyResult = "Untitled" := rfl
  have h2 : titleOfSpecExcerpt excerptOnlyResult = "An excerpt." := by
    rw [titleOfSpecExcerpt]
    rfl
  refine ⟨h1, h2, ?_⟩
  rw [h1, h2]
  decide

/-- C4: a passage scoring below the configured relevance cutoff is excluded
by the score filter of the source derivation, and a missing score is read as
0 for the comparison. -/
theorem below_cutoff_excluded (cfg : VectaraConfig) (results : List VectaraSearchResult)
    (r : VectaraSearchResult) (_hmem : r ∈ results)
    (hlt : scoreOf r < cfg.relevanceThreshold) :
    r ∉ survivingPassages cfg results ∧
      ∀ q : VectaraSearchResult, q.score = none → scoreOf q = 0 := by
  refine ⟨?_, fun q hq => by simp [scoreOf, hq]⟩
  intro hin
  have hp := List.of_mem_filter hin
  simp only [decide_eq_true_eq] at hp
  exact absurd hp (not_le.2 hlt)

/-- C4 witness: a concrete zero-scoring passage under a cutoff of 1. -/
theorem below_cutoff_excluded_witness :
    lowScoreResult ∈ [lowScoreResult] ∧
      scoreOf lowScoreResult < witnessConfig.relevanceThreshold ∧
      (lowScoreResult ∉ survivingPassages witnessConfig [lowScoreResult] ∧
        ∀ q : VectaraSearchResult, q.score = none → scoreOf q = 0) :=
  ⟨by simp, by decide,
    below_cutoff_excluded witnessConfig [lowScoreResult] lowScoreResult (by simp) (by decide)⟩

/-- C5: a success payload with a present non-empty summary, no field errors
and no messages, all of whose results score below the cutoff, yields a
success with an empty source list — zero surviving sources is not an
error. -/
theorem all_below_cutoff_ok (cfg : VectaraConfig) (resp : VectaraResponse) (s : String)
    (hsum : resp.summary = some s) (hne : s ≠ "")
    (hfe : resp.field_errors = none) (hms : resp.messages = none)
    (hlow : ∀ r ∈ resp.search_results.getD [], scoreOf r < cfg.relevanceThreshold) :
    query cfg (.success resp) = .ok { summary := s, sources := [] } := by
  have hsurv : survivingPassages cfg (resp.search_results.getD []) = [] := by
    rw [survivingPassages, List.filter_eq_nil_iff]
    intro r hr
    simpa using not_le.2 (hlow r hr)
  have hds : deriveSources cfg (resp.search_results.getD []) = [] := by
    rw [deriveSources, preDedup, hsurv]
    rfl
  rcases resp with ⟨sum, sr, fcs, fe, ms⟩
  simp only at hsum hfe hms
  subst hsum hfe hms
  simp [query, hne]
  simpa using hds

/-- C5 witness: the concrete below-cutoff response yields `sources: []`. -/
theorem all_below_cutoff_ok_witness :
    query witnessConfig (.success lowScoreResp) = .ok { summary := "ok", sources := [] } :=
  all_below_cutoff_ok witnessConfig lowScoreResp ("ok") rfl (by decide) rfl rfl (by decide)

/-- C6: a transport failure of the upstream call propagates through `query`
as a remote error carrying the upstream status and message; it is never
swallowed, never a success, and never one of the invalid-response
rejections. -/
theorem transport_error_propagates (cfg : VectaraConfig)
    (status : Option Nat) (message : String) :
    query cfg (.transportError status message) = .error (.remoteError status message) ∧
      isInvalidResponse (.remoteError status message) = false :=
  ⟨rfl, rfl⟩

/-- C7: `formatSources` returns the empty string on an absent or empty
argument; on a list of more than 15 sources it renders the header followed
by exactly the bullets of the first 15 sources, in the order provided. -/
theorem formatSources_empty_and_cap :
    formatSources none = "" ∧ formatSources (some []) = "" ∧
      ∀ l : List VectaraSource, 15 < l.length →
        formatSources (some l) =
          sourcesHeader ++ String.join ((l.take 15).map sourceBullet) ∧
        (l.take 15).length = 15 := by
  refine ⟨rfl, rfl, ?_⟩
  intro l hl
  have hne : ¬ l.length = 0 := by omega
  constructor
  · simp only [formatSources, if_neg hne]
    exact foldl_append_bullets (l.take 15) sourcesHeader
  · rw [List.length_take]
    omega

/-- C8: `cleanupMarkdown` strips bold, italic and inline-code markup, and
leading heading markers, on the two specified inputs. -/
theorem cleanupMarkdown_examples :
    cleanupMarkdown ("**bold** and *em* and `code`") = "bold and em and code" ∧
      cleanupMarkdown ("# Heading\ntext") = "Heading\ntext" :=
  ⟨rfl, rfl⟩

/-- C9 counterexample: constructing with `customerId` absent substitutes no
hard-coded default — the stored field is simply absent. -/
theorem customerId_has_no_default :
    (mkVectaraConfig emptyInput).customerId = none ∧
      ¬ ∃ d : String, (mkVectaraConfig emptyInput).customerId = some d := by
  refine ⟨rfl, ?_⟩
  rintro ⟨d, hd⟩
  exact Option.noConfusion hd

/-- C9 (amended): each of the nine numeric tuning fields falls back to its
hard-coded default when absent and takes the override when present, never
erroring; the credential, corpus and prompt fields are copied through
unchanged, with no default. -/
theorem config_field_defaults (inp : VectaraConfigInput) :
    (mkVectaraConfig inp).searchDepth = inp.searchDepth.getD 100 ∧
      (mkVectaraConfig inp).maxResults = inp.maxResults.getD 20 ∧
      (mkVectaraConfig inp).maxTokens = inp.maxTokens.getD 300 ∧
      (mkVectaraConfig inp).maxResponseChars = inp.maxResponseChars.getD 4000 ∧
      (mkVectaraConfig inp).temperature = inp.temperature.getD 0.5 ∧
      (mkVectaraConfig inp).frequencyPenalty = inp.frequencyPenalty.getD 0.3 ∧
      (mkVectaraConfig inp).presencePenalty = inp.presencePenalty.getD 0.3 ∧
      (mkVectaraConfig inp).relevanceThreshold = inp.relevanceThreshold.getD 0.25 ∧
      (mkVectaraConfig inp).diversityBias = inp.diversityBias.getD 0.2 ∧
      (mkVectaraConfig inp).customerId = inp.customerId ∧
      (mkVectaraConfig inp).apiKey = inp.apiKey ∧
      (mkVectaraConfig inp).corpusKey = inp.corpusKey ∧
      (mkVectaraConfig inp).prePrompt = inp.prePrompt ∧
      (mkVectaraConfig inp).promptTemplate = inp.promptTemplate :=
  ⟨rfl, rfl, rfl, rfl, rfl, rfl, rfl, rfl, rfl, rfl, rfl, rfl, rfl, rfl⟩

/-- C10: a success payload whose `field_errors` (or `messages`) key is bound
to an empty array is rejected as an invalid response even though a non-empty
summary is present — the check tests presence of the key, and an empty array
is truthy. -/
theorem empty_field_errors_still_rejected :
    emptyFieldErrorsResp.field_errors = some [] ∧
      emptyFieldErrorsResp.summary = some ("A present summary.") ∧
      query defaultConfig (.success emptyFieldErrorsResp) = .error (.invalidResponse []) ∧
      emptyMessagesResp.messages = some [] ∧
      emptyMessagesResp.summary = some ("A present summary.") ∧
      query defaultConfig (.success emptyMessagesResp) = .error (.invalidResponse []) :=
  ⟨rfl, rfl, rfl, rfl, rfl, rfl⟩

end AaiQuery
